import Mathlib

/-!
Verification of the CharityMap proximity core and its event-submission flows.

The repository is a Next.js charity-event site. The geospatial proximity
engine described by the design document (GeoMath, ProximityFilter,
ProximityViewModel) is not present in the checked-in sources; only its
collaborators are (the Leaflet MapComponent, the event list page, and the
Add/Edit event forms). Definitions below that embed missing code are marked
with a doc comment beginning with the words Modelled from the spec; all other
definitions are translated directly from the TypeScript sources.

Numbers are modelled over the reals where the code computes with
floating-point doubles (the haversine distance), and over the rationals in
the form flows, where only JavaScript truthiness of JSON numbers matters.
-/

namespace CharityMap

/-- Coordinate value consumed by the proximity core: latitude and longitude
in degrees, as in the Coordinates interface of MapComponent. -/
structure Coordinate where
  lat : ℝ
  lng : ℝ

/-- Event record as delivered by the event API boundary: latitude and
longitude may be null, which the core maps to an absent coordinate. -/
structure EventRecord where
  id : ℕ
  name : String
  host : String
  date : String
  locationLabel : String
  coordinate : Option Coordinate
  description : String

/-- Event record annotated with its distance from the user, in miles. -/
structure AnnotatedEvent where
  record : EventRecord
  distanceMiles : ℝ

/-- Complete input of one proximity computation: user coordinate, radius
cutoff in miles, and the raw event sequence. -/
structure ProximityQuery where
  userCoordinate : Coordinate
  radiusMiles : ℝ
  events : List EventRecord

namespace GeoMath

/-- Degrees-to-radians conversion used by the haversine formula. -/
noncomputable def toRadians (deg : ℝ) : ℝ :=
  deg * Real.pi / 180

/-- Mean Earth radius in miles used by the distance computation. -/
def earthRadiusMiles : ℚ := 3959

/-- Haversine term under the square root: sin^2 of half the latitude
difference plus the product of the cosines of the latitudes with sin^2 of
half the longitude difference. -/
noncomputable def haversineTerm (a b : Coordinate) : ℝ :=
  Real.sin (toRadians (b.lat - a.lat) / 2) ^ 2 +
    Real.cos (toRadians a.lat) * Real.cos (toRadians b.lat) *
      Real.sin (toRadians (b.lng - a.lng) / 2) ^ 2

/-- Modelled from the spec: GeoMath.distance is absent from the checked-in
sources (the map page computing it is not in the tree). Per section 4.1 it
is the great-circle haversine distance in miles with mean Earth radius
3959 miles. -/
noncomputable def distance (a b : Coordinate) : ℝ :=
  2 * (earthRadiusMiles : ℝ) * Real.arcsin (Real.sqrt (haversineTerm a b))

theorem haversineTerm_comm (a b : Coordinate) :
    haversineTerm a b = haversineTerm b a := by
  unfold haversineTerm toRadians
  have h1 : (a.lat - b.lat) * Real.pi / 180 / 2
      = -((b.lat - a.lat) * Real.pi / 180 / 2) := by ring
  have h2 : (a.lng - b.lng) * Real.pi / 180 / 2
      = -((b.lng - a.lng) * Real.pi / 180 / 2) := by ring
  rw [h1, h2, Real.sin_neg, Real.sin_neg]
  ring

theorem distance_comm (a b : Coordinate) : distance a b = distance b a := by
  unfold distance
  rw [haversineTerm_comm]

theorem distance_self (a : Coordinate) : distance a a = 0 := by
  unfold distance haversineTerm toRadians
  simp

theorem distance_nonneg (a b : Coordinate) : 0 ≤ distance a b := by
  unfold distance
  have hs : 0 ≤ Real.sqrt (haversineTerm a b) := Real.sqrt_nonneg _
  have ha : 0 ≤ Real.arcsin (Real.sqrt (haversineTerm a b)) :=
    Real.arcsin_nonneg.mpr hs
  have h2 : (0 : ℝ) ≤ 2 * (earthRadiusMiles : ℝ) := by norm_num [earthRadiusMiles]
  exact mul_nonneg h2 ha

end GeoMath

namespace ProximityFilter

/-- Default radius cutoff in miles; the event list source notes the cutoff
of 20 miles and section 3 of the spec fixes it as the default. -/
def defaultRadiusMiles : ℚ := 20

/-- Ascending order on annotated events: strictly smaller distance, or equal
distance with tie broken by ascending id. -/
def annLE (x y : AnnotatedEvent) : Prop :=
  x.distanceMiles < y.distanceMiles ∨
    (x.distanceMiles = y.distanceMiles ∧ x.record.id ≤ y.record.id)

noncomputable instance (x y : AnnotatedEvent) : Decidable (annLE x y) := by
  unfold annLE
  infer_instance

/-- Boolean form of the comparison handed to the sorting routine. -/
noncomputable def annLEb (x y : AnnotatedEvent) : Bool :=
  decide (annLE x y)

theorem annLEb_eq_true {x y : AnnotatedEvent} :
    annLEb x y = true ↔ annLE x y := by
  unfold annLEb
  exact decide_eq_true_iff

theorem annLE_trans (x y z : AnnotatedEvent) :
    annLE x y → annLE y z → annLE x z := by
  unfold annLE
  rintro (h | ⟨he, hi⟩) (h2 | ⟨he2, hi2⟩)
  · exact Or.inl (lt_trans h h2)
  · exact Or.inl (he2 ▸ h)
  · exact Or.inl (he ▸ h2)
  · exact Or.inr ⟨he.trans he2, le_trans hi hi2⟩

theorem annLE_total (x y : AnnotatedEvent) : annLE x y ∨ annLE y x := by
  unfold annLE
  rcases lt_trichotomy x.distanceMiles y.distanceMiles with h | h | h
  · exact Or.inl (Or.inl h)
  · rcases Nat.le_total x.record.id y.record.id with hi | hi
    · exact Or.inl (Or.inr ⟨h, hi⟩)
    · exact Or.inr (Or.inr ⟨h.symm, hi⟩)
  · exact Or.inr (Or.inl h)

/-- Step 1 and step 2 of the algorithm in section 4.2: discard a record
with absent coordinate, otherwise annotate it with its distance from the
user coordinate. -/
noncomputable def annotate (u : Coordinate) (e : EventRecord) :
    Option AnnotatedEvent :=
  match e.coordinate with
  | none => none
  | some c => some ⟨e, GeoMath.distance u c⟩

/-- Modelled from the spec: ProximityFilter.compute is absent from the
checked-in sources (the map page performing it is not in the tree). Per
section 4.2 it discards records with absent coordinates, annotates the rest
with their haversine distance from the user, discards those beyond the
radius, and sorts ascending by distance with ties broken by ascending id. -/
noncomputable def compute (q : ProximityQuery) : List AnnotatedEvent :=
  (((q.events.filterMap (annotate q.userCoordinate)).filter
      (fun x => decide (x.distanceMiles ≤ q.radiusMiles))).mergeSort annLEb)

theorem annotate_coordinate_isSome {u : Coordinate} {e : EventRecord}
    {x : AnnotatedEvent} (h : annotate u e = some x) :
    x.record.coordinate.isSome = true := by
  unfold annotate at h
  cases hc : e.coordinate with
  | none => rw [hc] at h; cases h
  | some c =>
      rw [hc] at h
      cases h
      simp [hc]

theorem mem_compute_radius {q : ProximityQuery} {x : AnnotatedEvent}
    (h : x ∈ compute q) : x.distanceMiles ≤ q.radiusMiles := by
  unfold compute at h
  rw [List.mem_mergeSort, List.mem_filter] at h
  exact of_decide_eq_true h.2

theorem mem_compute_coordinate_isSome {q : ProximityQuery}
    {x : AnnotatedEvent} (h : x ∈ compute q) :
    x.record.coordinate.isSome = true := by
  unfold compute at h
  rw [List.mem_mergeSort, List.mem_filter, List.mem_filterMap] at h
  obtain ⟨⟨e, _, he⟩, _⟩ := h
  exact annotate_coordinate_isSome he

end ProximityFilter

namespace MapAdapter

/-- Event shape consumed by MapComponent (the EventWithDistance interface):
the optional coordinates field decides whether a marker is rendered. -/
structure MapEvent where
  id : ℕ
  name : String
  host : String
  location : String
  distance : ℝ
  coordinates : Option Coordinate

/-- Marker reconciliation of MapComponent: one marker per event, rendered
only when the coordinates field of the event is present; translated from
the events.map guard in the source. -/
def eventMarkers (events : List MapEvent) : List MapEvent :=
  events.filter (fun e => e.coordinates.isSome)

theorem mem_eventMarkers_isSome {events : List MapEvent} {e : MapEvent}
    (h : e ∈ eventMarkers events) : e.coordinates.isSome = true :=
  (List.mem_filter.mp h).2

end MapAdapter

/-- Claim C1: the output of ProximityFilter.compute is sorted ascending by
distanceMiles with ties broken by ascending id, for every query; the order
is deterministic because compute is a pure function of the query. -/
theorem compute_sorted_by_distance_then_id (q : ProximityQuery) :
    (ProximityFilter.compute q).Sorted ProximityFilter.annLE := by
  unfold ProximityFilter.compute List.Sorted
  have hs := @List.sorted_mergeSort AnnotatedEvent ProximityFilter.annLEb
    (fun a b c hab hbc =>
      ProximityFilter.annLEb_eq_true.mpr
        (ProximityFilter.annLE_trans a b c
          (ProximityFilter.annLEb_eq_true.mp hab)
          (ProximityFilter.annLEb_eq_true.mp hbc)))
    (fun a b => by
      rcases ProximityFilter.annLE_total a b with h | h
      · simp [ProximityFilter.annLEb_eq_true.mpr h]
      · simp [ProximityFilter.annLEb_eq_true.mpr h])
    ((q.events.filterMap (ProximityFilter.annotate q.userCoordinate)).filter
      (fun x => decide (x.distanceMiles ≤ q.radiusMiles)))
  exact hs.imp (fun h => ProximityFilter.annLEb_eq_true.mp h)

/-- Claim C2: every element of the output of ProximityFilter.compute has
distanceMiles at most the radius cutoff of the query. -/
theorem compute_within_radius (q : ProximityQuery) :
    (ProximityFilter.compute q).Forall
      (fun x => x.distanceMiles ≤ q.radiusMiles) := by
  rw [List.forall_iff_forall_mem]
  intro x hx
  exact ProximityFilter.mem_compute_radius hx

/-- Claim C3: an event with absent coordinate never appears in the
proximity output, and MapComponent never renders a marker for an event
whose coordinates field is absent. -/
theorem absent_coordinate_excluded :
    (∀ q : ProximityQuery,
        (ProximityFilter.compute q).Forall
          (fun x => x.record.coordinate.isSome = true)) ∧
      (∀ events : List MapAdapter.MapEvent,
        (MapAdapter.eventMarkers events).Forall
          (fun e => e.coordinates.isSome = true)) := by
  constructor
  · intro q
    rw [List.forall_iff_forall_mem]
    intro x hx
    exact ProximityFilter.mem_compute_coordinate_isSome hx
  · intro events
    rw [List.forall_iff_forall_mem]
    intro e he
    exact MapAdapter.mem_eventMarkers_isSome he

/-- Claim C4: for all coordinate pairs a and b, the distance is nonnegative,
symmetric, and zero on the diagonal. Proved exactly (no tolerance needed)
in the real-valued model of the haversine formula. -/
theorem geomath_distance_metric_properties (a b : Coordinate) :
    0 ≤ GeoMath.distance a b ∧
      GeoMath.distance a b = GeoMath.distance b a ∧
      GeoMath.distance a a = 0 :=
  ⟨GeoMath.distance_nonneg a b, GeoMath.distance_comm a b, GeoMath.distance_self a⟩

namespace ProximityViewModel

/-- Snapshot exposed by the view model to both renderers: the annotated,
sorted, radius-filtered sequence when a user coordinate is available, and
the raw unfiltered, unsorted event collection otherwise. -/
inductive ViewState where
  | annotated (items : List AnnotatedEvent)
  | raw (items : List EventRecord)

/-- Modelled from the spec: the ProximityViewModel (the map page composing
events, user location and the filter) is absent from the checked-in
sources. Per section 4.3 it recomputes the filter result from the latest
inputs, and with an absent user coordinate it exposes the unfiltered,
unsorted raw collection instead of failing. -/
noncomputable def viewModelState (userCoordinate : Option Coordinate)
    (radiusMiles : ℝ) (events : List EventRecord) : ViewState :=
  match userCoordinate with
  | none => ViewState.raw events
  | some u => ViewState.annotated (ProximityFilter.compute ⟨u, radiusMiles, events⟩)

/-- List rows rendered from a snapshot: the event id together with the
optional distance field, absent for raw events (the list page renders the
distance paragraph empty in that case). -/
def ViewState.rows : ViewState → List (ℕ × Option ℝ)
  | ViewState.raw items => items.map (fun e => (e.id, none))
  | ViewState.annotated items =>
      items.map (fun x => (x.record.id, some x.distanceMiles))

end ProximityViewModel

/-- Claim C5: with an absent user coordinate the view model does not fail:
every raw event still renders a row, in the raw order, with the distance
field omitted. -/
theorem absent_location_degrades_gracefully (radiusMiles : ℝ)
    (events : List EventRecord) :
    (ProximityViewModel.viewModelState none radiusMiles events).rows
        = events.map (fun e => (e.id, none)) ∧
      (ProximityViewModel.viewModelState none radiusMiles events).rows.length
        = events.length := by
  constructor
  · rfl
  · simp [ProximityViewModel.viewModelState, ProximityViewModel.ViewState.rows]

namespace MapAdapter

/-- Modelled from the spec: the map page converting the shared view-model
snapshot into the MapComponent input is absent from the checked-in sources.
Per sections 4.3 and 4.4 both renderers receive the identical annotated
sequence, keyed by id, with the record coordinate carried into the
coordinates field of the marker input. -/
noncomputable def toMapEvent (x : AnnotatedEvent) : MapEvent :=
  ⟨x.record.id, x.record.name, x.record.host, x.record.locationLabel,
    x.distanceMiles, x.record.coordinate⟩

end MapAdapter

/-- Claim C6: the ids of the events given markers by MapComponent are
exactly the ids of the events in the shared list snapshot, in the same
order, for every query; no marker without a list row and no list row
without a marker. -/
theorem marker_ids_eq_list_ids (q : ProximityQuery) :
    (MapAdapter.eventMarkers
        ((ProximityFilter.compute q).map MapAdapter.toMapEvent)).map
          (fun e => e.id)
      = (ProximityFilter.compute q).map (fun x => x.record.id) := by
  have hall : ∀ e ∈ (ProximityFilter.compute q).map MapAdapter.toMapEvent,
      e.coordinates.isSome = true := by
    intro e he
    rw [List.mem_map] at he
    obtain ⟨x, hx, rfl⟩ := he
    exact ProximityFilter.mem_compute_coordinate_isSome hx
  unfold MapAdapter.eventMarkers
  rw [List.filter_eq_self.mpr hall, List.map_map]
  rfl

namespace MapAdapter

/-- Leaflet map view state observed by the recenter effect: current center
and zoom level. -/
structure MapView where
  center : Coordinate
  zoom : ℕ

/-- Leaflet setView: replaces both the center and the zoom level. -/
def setView (m : MapView) (c : Coordinate) (z : ℕ) : MapView :=
  { m with center := c, zoom := z }

/-- Leaflet getZoom: reads the current zoom level. -/
def getZoom (m : MapView) : ℕ :=
  m.zoom

/-- Recenter effect of RecenterMap and MapController in the source: on a
user-coordinate change it runs map.setView at the new center with
map.getZoom as the zoom argument. -/
def recenter (m : MapView) (c : Coordinate) : MapView :=
  setView m c (getZoom m)

end MapAdapter

/-- Claim C7: recentering on a new user coordinate moves the center to that
coordinate and leaves the zoom level unchanged. -/
theorem recenter_preserves_zoom (m : MapAdapter.MapView) (c : Coordinate) :
    (MapAdapter.recenter m c).center = c ∧
      (MapAdapter.recenter m c).zoom = m.zoom :=
  ⟨rfl, rfl⟩

/-- Location selected from the Nominatim search results: display address
together with the parsed latitude and longitude. -/
structure SelectedLocation where
  address : String
  lat : ℚ
  lng : ℚ

/-- Form data of the Add flows (the NewEvent form type). -/
structure NewEvent where
  eventName : String
  eventHost : String
  date : String
  location : String
  description : String

/-- JSON body of the POST request creating an event; the legacy Add flow
sends no latitude or longitude fields, modelled as absent here. -/
structure EventPostBody where
  name : String
  host : String
  date : String
  location : String
  latitude : Option ℚ
  longitude : Option ℚ
  description : String

namespace AddEventFlow

/-- Translated from the addEvent handler of the location-aware AddEvent
component: with no selected location it sets a status message and returns
before any fetch; otherwise it posts the form data with the selected
address and coordinates. The pair is the resulting status message and the
request body sent, if any. -/
def addEvent (selectedLocation : Option SelectedLocation) (data : NewEvent) :
    Option String × Option EventPostBody :=
  match selectedLocation with
  | none => (some ("Please search and select a location."), none)
  | some loc =>
      (some ("Successfully added event."),
        some ⟨data.eventName, data.eventHost, data.date, loc.address,
          some loc.lat, some loc.lng, data.description⟩)

end AddEventFlow

namespace LegacyAddEventFlow

/-- Translated from the second AddEvent component in the sources: it keeps
no selected-location state and unconditionally posts the typed form data,
with the free-text location and no latitude or longitude. -/
def addEvent (data : NewEvent) : Option String × Option EventPostBody :=
  (some ("Successfully added event."),
    some ⟨data.eventName, data.eventHost, data.date, data.location,
      none, none, data.description⟩)

/-- Concrete submission with a typed but never selected location, used to
exhibit a request emitted by the legacy Add flow without any selection. -/
def sampleNewEvent : NewEvent :=
  ⟨"Food Drive", "Local Pantry", "2026-01-01", "typed, never selected",
    "a sample submission"⟩

end LegacyAddEventFlow

/-- Form data of the Edit flow (the EventFormData interface). -/
structure EventFormData where
  eventName : String
  date : String
  description : String
  contactInfo : String

/-- JSON body of the PUT request updating an event. -/
structure EventPutBody where
  name : String
  date : String
  location : String
  latitude : ℚ
  longitude : ℚ
  description : String
  contact_info : String

/-- Outcome of one updateEvent call: the status message set and the request
body sent, if any. -/
structure UpdateResult where
  status : Option String
  request : Option EventPutBody

/-- Stored event as fetched by the Edit flow (the EventData interface):
latitude and longitude are nullable JSON numbers. -/
structure StoredEvent where
  id : ℕ
  name : String
  host : String
  date : String
  location : String
  latitude : Option ℚ
  longitude : Option ℚ
  description : String
  contact_info : Option String

namespace EditEventFlow

/-- JavaScript truthiness of a nullable numeric field: null and 0 are both
falsy, every other number is truthy. -/
def numTruthy : Option ℚ → Bool
  | none => false
  | some x => decide (x ≠ 0)

/-- Translated from fetchEvent in the EditEvent component: the selected
location is prefilled only when data.latitude and data.longitude are both
truthy, with the stored address and coordinates. -/
def prefillSelectedLocation (stored : StoredEvent) : Option SelectedLocation :=
  if numTruthy stored.latitude && numTruthy stored.longitude then
    some ⟨stored.location, stored.latitude.getD 0, stored.longitude.getD 0⟩
  else
    none

/-- Translated from updateEvent in the EditEvent component: with no
selected location it sets a status message and returns; then with no auth
token it sets a status message and returns; only past both checks does it
issue the PUT request with the form data and selected coordinates. -/
def updateEvent (selectedLocation : Option SelectedLocation)
    (token : Option String) (data : EventFormData) : UpdateResult :=
  match selectedLocation with
  | none => ⟨some ("Please search and select a location."), none⟩
  | some loc =>
      match token with
      | none => ⟨some ("Please sign in to edit events."), none⟩
      | some _ =>
          ⟨some ("Event updated successfully!"),
            some ⟨data.eventName, data.date, loc.address, loc.lat, loc.lng,
              data.description, data.contactInfo⟩⟩

/-- Server-side effect of the Edit flow on the stored event: an absent
request leaves the stored record unchanged, a sent request overwrites the
updatable fields. -/
def applyUpdate (stored : StoredEvent) : Option EventPutBody → StoredEvent
  | none => stored
  | some r =>
      { stored with
          name := r.name, date := r.date, location := r.location,
          latitude := some r.latitude, longitude := some r.longitude,
          description := r.description, contact_info := some r.contact_info }

end EditEventFlow

/-- Claim C8 counterexample: the legacy Add flow keeps no selected-location
state and sends the create request anyway, so a submission with no selected
location is not rejected in every flow. At the concrete sample submission
the emitted body carries the free-text location and no coordinates. -/
theorem legacy_add_sends_request_without_selection :
    (LegacyAddEventFlow.addEvent LegacyAddEventFlow.sampleNewEvent).2
      = some ⟨"Food Drive", "Local Pantry", "2026-01-01",
          "typed, never selected", none, none, "a sample submission"⟩ :=
  rfl

/-- Claim C8 as amended: in the location-aware Add flow and in the Edit
flow, a submission with no selected location is rejected with a status
message and no request is sent; the legacy Add flow does not enforce
selection. -/
theorem guarded_flows_require_selected_location (data : NewEvent)
    (fd : EventFormData) (token : Option String) :
    AddEventFlow.addEvent none data
        = (some ("Please search and select a location."), none) ∧
      EditEventFlow.updateEvent none token fd
        = ⟨some ("Please search and select a location."), none⟩ :=
  ⟨rfl, rfl⟩

/-- Claim C9: the Edit flow prefills the selected coordinate exactly when
both stored latitude and longitude are truthy, so a stored latitude or
longitude equal to 0 is treated as an absent coordinate and the event
loses its coordinate unless the user reselects a location. -/
theorem prefill_zero_coordinate_treated_absent :
    (∀ s : StoredEvent,
        (EditEventFlow.prefillSelectedLocation s).isSome
          = (EditEventFlow.numTruthy s.latitude
              && EditEventFlow.numTruthy s.longitude)) ∧
      (∀ (id : ℕ) (name host date location : String) (lng : Option ℚ)
          (description : String) (contact : Option String),
        EditEventFlow.prefillSelectedLocation
            ⟨id, name, host, date, location, some 0, lng, description, contact⟩
          = none) ∧
      (∀ (id : ℕ) (name host date location : String) (lat : Option ℚ)
          (description : String) (contact : Option String),
        EditEventFlow.prefillSelectedLocation
            ⟨id, name, host, date, location, lat, some 0, description, contact⟩
          = none) := by
  refine ⟨?_, ?_, ?_⟩
  · intro s
    unfold EditEventFlow.prefillSelectedLocation
    cases h : EditEventFlow.numTruthy s.latitude && EditEventFlow.numTruthy s.longitude
    · simp [h]
    · simp [h]
  · intro id name host date location lng description contact
    simp [EditEventFlow.prefillSelectedLocation, EditEventFlow.numTruthy]
  · intro id name host date location lat description contact
    simp [EditEventFlow.prefillSelectedLocation, EditEventFlow.numTruthy]

/-- Claim C10: updateEvent is atomic on its precondition failures: with no
selected location, or with a location but no auth token, it sets the
corresponding status message, sends no request, and the stored event is
unchanged. -/
theorem updateEvent_precondition_atomic :
    (∀ (token : Option String) (d : EventFormData) (s : StoredEvent),
        EditEventFlow.updateEvent none token d
            = ⟨some ("Please search and select a location."), none⟩ ∧
          EditEventFlow.applyUpdate s
              (EditEventFlow.updateEvent none token d).request = s) ∧
      (∀ (loc : SelectedLocation) (d : EventFormData) (s : StoredEvent),
        EditEventFlow.updateEvent (some loc) none d
            = ⟨some ("Please sign in to edit events."), none⟩ ∧
          EditEventFlow.applyUpdate s
              (EditEventFlow.updateEvent (some loc) none d).request = s) :=
  ⟨fun _ _ _ => ⟨rfl, rfl⟩, fun _ _ _ => ⟨rfl, rfl⟩⟩

end CharityMap
